import Mathlib

/-!
Verification of the hanzi-game progression and battle engine.

The definitions below are a shallow embedding of the JavaScript sources
(`game-data.js` and the core game-engine file): JS objects become
structures, JS object maps become association lists over `String` keys,
JS numbers become `Nat` (counters, levels, XP — always non-negative in
the source) or `Int` (derived combat stats and damage, which involve
subtraction), and `Math.random()`-based draws become explicit `Nat`
parameters denoting the result of `Math.floor(random * n)`.
`Except` models a thrown JS exception; result records with a success
flag model the source's `{ success: false, ... }` return values.
-/

namespace HanziGame

/-- JS `x || d` for a number field: `0` is falsy and falls back to the default. -/
def jsOrNat (x d : Nat) : Nat := if x = 0 then d else x

/-- JS `x || d` for a string field: `""` is falsy and falls back to the default. -/
def jsOrStr (x d : String) : String := if x = "" then d else x

/-- JS `x || null` for a nullable string field: `null` and `""` both map to `null`. -/
def jsOrNull (x : Option String) : Option String :=
  match x with
  | none => none
  | some s => if s = "" then none else some s

/-- JS object property lookup on a string-keyed map (modelled as an association list). -/
def lookup {α : Type} (l : List (String × α)) (k : String) : Option α :=
  (l.find? (fun p => p.1 == k)).map (·.2)

/-- Character.getXPForNextLevel: `this.level * 100`. -/
def charThreshold (level : Nat) : Nat := level * 100

/-- Phrase.getXPForNextLevel: `this.level * 150`. -/
def phraseThreshold (level : Nat) : Nat := level * 150

/-- Player.getXPForNextLevel: `this.level * 200`. -/
def playerThreshold (level : Nat) : Nat := level * 200

/-- The `while (this.xp >= this.getXPForNextLevel()) { this.xp -= ...; this.level++ }`
loop shared by `Character.addXP` and `Player.addXP`, with
`getXPForNextLevel() = level * step`.  The JS loop terminates whenever
`step ≥ 1` and `level ≥ 1` (each iteration consumes `level*step ≥ 1` XP), which
always holds at runtime; we make that explicit with a fuel parameter (any
`fuel ≥ xp` is enough, see `levelLoop_fuel_le`) and with the `0 < step ∧ 0 < level`
conjuncts in the guard, so that the definition is structurally recursive and
evaluates by kernel reduction. -/
def levelLoop (step : Nat) : Nat → Nat → Nat → Nat × Nat
  | 0, level, xp => (level, xp)
  | fuel + 1, level, xp =>
    if 0 < step ∧ 0 < level ∧ level * step ≤ xp then
      levelLoop step fuel (level + 1) (xp - level * step)
    else
      (level, xp)

/-- `Character` (game-data.js): static linguistic attributes, progression
counters and the cached derived combat stats. -/
structure Character where
  char : String
  pinyin : String
  strokes : Nat
  difficulty : Nat
  frequency : Nat
  level : Nat
  xp : Nat
  totalPractices : Nat
  totalMistakes : Nat
  bestAccuracy : Nat
  unlocked : Bool
  isPhraseCharacter : Bool
  originalPhrase : Option String
  hp : Int
  attack : Int
  defense : Int
deriving Repr, DecidableEq

/-- Character.calculateHP: `20 + strokes*3 + (level-1)*5`. -/
def Character.calculateHP (c : Character) : Int :=
  20 + (c.strokes : Int) * 3 + ((c.level : Int) - 1) * 5

/-- Character.calculateAttack: `10 + (10 - floor(frequency/10)) + (level-1)*2`. -/
def Character.calculateAttack (c : Character) : Int :=
  10 + (10 - ((c.frequency / 10 : Nat) : Int)) + ((c.level : Int) - 1) * 2

/-- Character.calculateDefense: `8 + difficulty*4 + (level-1)*2`. -/
def Character.calculateDefense (c : Character) : Int :=
  8 + (c.difficulty : Int) * 4 + ((c.level : Int) - 1) * 2

/-- The stat-recomputation block run by the constructor and on each level-up. -/
def Character.recomputeStats (c : Character) : Character :=
  { c with hp := c.calculateHP, attack := c.calculateAttack, defense := c.calculateDefense }

/-- Character.addXP: add `amount`, then run the level-up while-loop.  The source
recomputes the cached stats inside every loop iteration; only the final
iteration's values survive, so we recompute once, at the final level, exactly
when at least one level-up occurred.  Returns the updated character and the
`leveledUp` flag. -/
def Character.addXP (c : Character) (amount : Nat) : Character × Bool :=
  let xp1 := c.xp + amount
  let r := levelLoop 100 xp1 c.level xp1
  if c.level < r.1 then
    (Character.recomputeStats { c with level := r.1, xp := r.2 }, true)
  else
    ({ c with xp := r.2 }, false)

/-- `Player` (game-data.js). -/
structure Player where
  level : Nat
  xp : Nat
  totalCharacters : Nat
  totalPhrases : Nat
  totalPracticeTime : Nat
  achievements : List String
deriving Repr, DecidableEq

/-- Player.addXP: same while-loop as `Character.addXP` with threshold
`level * 200` and no cached stats. -/
def Player.addXP (p : Player) (amount : Nat) : Player × Bool :=
  let xp1 := p.xp + amount
  let r := levelLoop 200 xp1 p.level xp1
  ({ p with level := r.1, xp := r.2 }, decide (p.level < r.1))

/-- `Phrase` (game-data.js): constituents, the per-constituent level
requirement map, progression state and cached derived stats. -/
structure Phrase where
  text : String
  characters : List String
  requirements : List (String × Nat)
  difficulty : Nat
  frequency : Nat
  pinyin : String
  meaning : String
  level : Nat
  xp : Nat
  unlocked : Bool
  totalPractices : Nat
  firstTimeCompleted : Bool
  hp : Int
  attack : Int
  defense : Int
deriving Repr, DecidableEq

/-- Phrase.calculateHP: `50 + characters.length*20 + (level-1)*10`. -/
def Phrase.calculateHP (p : Phrase) : Int :=
  50 + (p.characters.length : Int) * 20 + ((p.level : Int) - 1) * 10

/-- Phrase.calculateAttack: `15 + difficulty*5 + (level-1)*3`. -/
def Phrase.calculateAttack (p : Phrase) : Int :=
  15 + (p.difficulty : Int) * 5 + ((p.level : Int) - 1) * 3

/-- Phrase.calculateDefense: `12 + (15 - floor(frequency/15)) + (level-1)*3`. -/
def Phrase.calculateDefense (p : Phrase) : Int :=
  12 + (15 - ((p.frequency / 15 : Nat) : Int)) + ((p.level : Int) - 1) * 3

/-- The stat-recomputation block of the `Phrase` constructor / level-up path. -/
def Phrase.recomputeStats (p : Phrase) : Phrase :=
  { p with hp := p.calculateHP, attack := p.calculateAttack, defense := p.calculateDefense }

/-- Phrase.canUnlock: `this.characters.every(char => { const character =
characterCollection[char]; return character && character.level >=
this.requirements[char] })`.  When `requirements[char]` is `undefined` the JS
comparison `level >= undefined` is false, hence the `none` case below. -/
def Phrase.canUnlock (p : Phrase) (characterCollection : List (String × Character)) : Bool :=
  p.characters.all (fun ch =>
    match lookup characterCollection ch, lookup p.requirements ch with
    | some c, some r => r ≤ c.level
    | some _, none => false
    | none, _ => false)

/-- Result record of `Phrase.recordPractice`. -/
structure PhrasePracticeResult where
  xpGained : Nat
  leveledUp : Bool
  isFirstCompletion : Bool
deriving Repr, DecidableEq

/-- Phrase.recordPractice: bump the practice counter, flip
`firstTimeCompleted`, award `25 + characters.length*5 + (first ? 50 : 0)` XP
and perform at most ONE level-up (the source uses a single `if`, not the
while-loop used by `Character.addXP` / `Player.addXP`). -/
def Phrase.recordPractice (p : Phrase) : Phrase × PhrasePracticeResult :=
  let isFirstCompletion := !p.firstTimeCompleted
  let p := { p with totalPractices := p.totalPractices + 1, firstTimeCompleted := true }
  let baseXP := 25
  let sequenceBonus := p.characters.length * 5
  let firstTimeBonus := if isFirstCompletion then 50 else 0
  let xpGained := baseXP + sequenceBonus + firstTimeBonus
  let p := { p with xp := p.xp + xpGained }
  let xpRequired := phraseThreshold p.level
  if xpRequired ≤ p.xp then
    let p := Phrase.recomputeStats { p with xp := p.xp - xpRequired, level := p.level + 1 }
    (p, ⟨xpGained, true, isFirstCompletion⟩)
  else
    (p, ⟨xpGained, false, isFirstCompletion⟩)

/-- `Item` (game-data.js / bag module). -/
structure Item where
  id : String
  name : String
  description : String
  type : String
  value : Nat
  rarity : String
  icon : String
  quantity : Nat
deriving Repr, DecidableEq

/-- A `DEFAULT_ITEMS` entry: the static part of an item definition. -/
structure ItemSpec where
  id : String
  name : String
  description : String
  type : String
  value : Nat
  rarity : String
  icon : String
deriving Repr, DecidableEq

/-- The built-in `DEFAULT_ITEMS` table (display strings abbreviated to the ones
the game logic reads; `name`/`description`/`icon` are kept verbatim). -/
def DEFAULT_ITEMS : List (String × ItemSpec) :=
  [("xp_boost_small",
    ⟨"xp_boost_small", "Small XP Boost", "Grants 100 XP to a character", "xp_boost", 100,
      "common", "🔮"⟩),
   ("xp_boost_medium",
    ⟨"xp_boost_medium", "Medium XP Boost", "Grants 200 XP to a character", "xp_boost", 200,
      "uncommon", "💎"⟩),
   ("xp_boost_large",
    ⟨"xp_boost_large", "Large XP Boost", "Grants 700 XP to a character", "xp_boost", 700,
      "rare", "⭐"⟩)]

/-- `Bag`: capacity plus the item map. -/
structure Bag where
  maxSlots : Nat
  items : List (String × Item)
deriving Repr, DecidableEq

/-- The whole engine state held by the `HanziGame` class (the fields the
progression/battle core reads and writes; transient practice-session and DOM
fields are not part of the persisted model). -/
structure GameState where
  player : Player
  bag : Bag
  characters : List (String × Character)
  phrases : List (String × Phrase)
deriving Repr, DecidableEq

/-- Result record for operations that report failure as a value
(`{ success: ..., message: ... }` in the source). -/
structure OpResult where
  success : Bool
  message : String
deriving Repr, DecidableEq

/-- HanziGame.removeCharacter: delete the character, refresh
`player.totalCharacters`, and for EVERY phrase whose constituent list contains
the removed character (whether or not that phrase is currently unlocked) set
`unlocked = false` and decrement `player.totalPhrases`, clamped at 0
(`Math.max(0, totalPhrases - 1)`, which coincides with truncated `Nat`
subtraction). -/
def GameState.removeCharacter (g : GameState) (ch : String) : GameState × OpResult :=
  match lookup g.characters ch with
  | none => (g, ⟨false, "Character does not exist"⟩)
  | some _ =>
    let characters := g.characters.filter (fun p => p.1 ≠ ch)
    let player := { g.player with totalCharacters := characters.length }
    let step := fun (st : List (String × Phrase) × Nat) (tp : String × Phrase) =>
      if ch ∈ tp.2.characters then
        (st.1 ++ [(tp.1, { tp.2 with unlocked := false })], st.2 - 1)
      else
        (st.1 ++ [tp], st.2)
    let r := g.phrases.foldl step ([], player.totalPhrases)
    ({ g with
        characters := characters,
        phrases := r.1,
        player := { player with totalPhrases := r.2 } },
      ⟨true, "Character removed successfully"⟩)

/-- HanziGame.startPractice: `if (!this.characters[char]) throw new Error(...)`.
`Except.error` models the thrown exception; on success the practiced character
is returned (the session-state fields the source also initializes are
transient and not modelled). -/
def GameState.startPractice (g : GameState) (ch : String) : Except String Character :=
  match lookup g.characters ch with
  | none => .error ("Character " ++ ch ++ " not found")
  | some c => .ok c

/-- The `completionData` record assembled by `completePhraseSequence`. -/
structure CompletionData where
  bonusXP : Nat
  playerLeveledUp : Bool
  isFirstCompletion : Bool
deriving Repr, DecidableEq

/-- HanziGame.completePhraseSequence, XP core: the player receives
`bonusXP = characters.length * 10` through `Player.addXP`, and the phrase
records the completion through `Phrase.recordPractice`.  (The remaining source
lines — phrase-character synthesis on first completion, giving an existing
phrase-character half the bonus, accuracy bookkeeping, saving, UI callback —
touch the roster and per-character stats but never the player's XP/level.) -/
def GameState.completePhraseSequence (player : Player) (phrase : Phrase) :
    Player × Phrase × CompletionData :=
  let bonusXP := phrase.characters.length * 10
  let pr := player.addXP bonusXP
  let rp := phrase.recordPractice
  (pr.1, rp.1, ⟨bonusXP, pr.2, rp.2.isFirstCompletion⟩)

/-- Result record of `executeBattleTurn`. -/
structure BattleTurnResult where
  damage : Int
  enemyDefeated : Bool
deriving Repr, DecidableEq

/-- HanziGame.executeBattleTurn: `baseDamage = max(1, attack - defense)`,
`variation = Math.floor(Math.random() * 6) - 2` (the `draw` parameter is the
result of `Math.floor(Math.random() * 6)`, a uniform draw from `{0,...,5}`),
`damage = max(1, baseDamage + variation)`, then the enemy's `currentHP` is
floored at 0.  Returns the new enemy HP together with the result record. -/
def GameState.executeBattleTurn (attack defense enemyHP : Int) (draw : Nat) :
    Int × BattleTurnResult :=
  let baseDamage := max 1 (attack - defense)
  let variation : Int := (draw : Int) - 2
  let damage := max 1 (baseDamage + variation)
  let newHP := max 0 (enemyHP - damage)
  (newHP, ⟨damage, decide (newHP = 0)⟩)

/-- HanziGame.executeEnemyTurn: `null` when the enemy is already at 0 HP,
otherwise the same damage formula with the enemy's attack against the player
character's defense (the source does not mutate the player character here). -/
def GameState.executeEnemyTurn (enemyHP attack defense : Int) (draw : Nat) : Option Int :=
  if enemyHP = 0 then none
  else some (max 1 (max 1 (attack - defense) + ((draw : Int) - 2)))

/-- Result record of `getPlayerLevelStats`. -/
structure LevelStats where
  averageLevel : Nat
  maxLevel : Nat
  minLevel : Nat
deriving Repr, DecidableEq

/-- HanziGame.getPlayerLevelStats: `{averageLevel: 1, maxLevel: 1, minLevel: 1}`
for an empty roster, otherwise floor-average, max and min of the roster's
levels. -/
def GameState.getPlayerLevelStats (characters : List Character) : LevelStats :=
  match characters with
  | [] => ⟨1, 1, 1⟩
  | c :: cs =>
    let levels := (c :: cs).map (·.level)
    let totalLevel := levels.foldl (· + ·) 0
    ⟨totalLevel / levels.length,
      (cs.map (·.level)).foldl Nat.max c.level,
      (cs.map (·.level)).foldl Nat.min c.level⟩

/-- The opponent attributes `calculateOpponentLevel` reads. -/
structure OpponentShape where
  isPhrase : Bool
  strokes : Nat
  difficulty : Nat
deriving Repr, DecidableEq

/-- HanziGame.calculateStrokeModifier: stroke-count difficulty tiers. -/
def GameState.calculateStrokeModifier (strokeCount : Nat) : Int :=
  if strokeCount ≤ 3 then -2
  else if strokeCount ≤ 6 then -1
  else if strokeCount ≤ 10 then 0
  else if strokeCount ≤ 15 then 1
  else 2

/-- HanziGame.calculateOpponentLevel.  `r1` models the early-game draw
`Math.floor(Math.random() * 3)` (via `r1 % 3`, uniform on `{0,1,2}`) and `r2`
the later-game draw `Math.floor(Math.random() * (maxTarget - minTarget + 1))`
(via `Int` remainder, uniform on `{0,...,range-1}`). -/
def GameState.calculateOpponentLevel (stats : LevelStats) (opp : OpponentShape)
    (r1 r2 : Nat) : Int :=
  let targetLevel : Int :=
    if stats.averageLevel ≤ 3 then
      (stats.averageLevel : Int) + ((r1 % 3 : Nat) : Int) - 1
    else
      let levelSpread : Int := min 3 (((stats.maxLevel - stats.minLevel : Nat) / 2 : Nat) + 1)
      let minTarget : Int := max 1 ((stats.averageLevel : Int) - levelSpread)
      let maxTarget : Int := (stats.averageLevel : Int) + levelSpread
      minTarget + (r2 : Int) % (maxTarget - minTarget + 1)
  let strokeModifier := GameState.calculateStrokeModifier opp.strokes
  let difficultyModifier : Int := if opp.isPhrase then 1 else 0
  let complexityModifier : Int := if 4 ≤ opp.difficulty then 1 else 0
  max 1 (targetLevel + strokeModifier + difficultyModifier + complexityModifier)

/-- The JSON record written by `Character.toJSON` (all fields always present). -/
structure CharacterJSON where
  char : String
  pinyin : String
  strokes : Nat
  difficulty : Nat
  frequency : Nat
  level : Nat
  xp : Nat
  totalPractices : Nat
  totalMistakes : Nat
  bestAccuracy : Nat
  unlocked : Bool
  isPhraseCharacter : Bool
  originalPhrase : Option String
deriving Repr, DecidableEq

/-- Character.toJSON. -/
def Character.toJSON (c : Character) : CharacterJSON :=
  ⟨c.char, c.pinyin, c.strokes, c.difficulty, c.frequency, c.level, c.xp,
    c.totalPractices, c.totalMistakes, c.bestAccuracy, c.unlocked,
    c.isPhraseCharacter, c.originalPhrase⟩

/-- The `Character` constructor `new Character(char, data)`: applies the JS
`||` defaults to every persisted field (`unlocked` uses the
`data.unlocked !== undefined ? data.unlocked : true` pattern, which is the
identity when the field is present, as it is in a `toJSON` record), then
derives the cached combat stats from the loaded data. -/
def Character.ofData (char : String) (d : CharacterJSON) : Character :=
  let c : Character :=
    { char := char
      pinyin := jsOrStr d.pinyin ""
      strokes := jsOrNat d.strokes 1
      difficulty := jsOrNat d.difficulty 1
      frequency := jsOrNat d.frequency 50
      level := jsOrNat d.level 1
      xp := jsOrNat d.xp 0
      totalPractices := jsOrNat d.totalPractices 0
      totalMistakes := jsOrNat d.totalMistakes 0
      bestAccuracy := jsOrNat d.bestAccuracy 0
      unlocked := d.unlocked
      isPhraseCharacter := d.isPhraseCharacter || false
      originalPhrase := jsOrNull d.originalPhrase
      hp := 0, attack := 0, defense := 0 }
  c.recomputeStats

/-- The JSON record written by `Phrase.toJSON`. -/
structure PhraseJSON where
  text : String
  characters : List String
  requirements : List (String × Nat)
  difficulty : Nat
  frequency : Nat
  pinyin : String
  meaning : String
  level : Nat
  xp : Nat
  unlocked : Bool
  totalPractices : Nat
  firstTimeCompleted : Bool
deriving Repr, DecidableEq

/-- Phrase.toJSON. -/
def Phrase.toJSON (p : Phrase) : PhraseJSON :=
  ⟨p.text, p.characters, p.requirements, p.difficulty, p.frequency, p.pinyin,
    p.meaning, p.level, p.xp, p.unlocked, p.totalPractices, p.firstTimeCompleted⟩

/-- The `Phrase` constructor `new Phrase(text, data)`.  `data.characters || []`
and `data.requirements || {}` are the identity on a present field (arrays and
objects are truthy in JS, even when empty), as are `|| false` on booleans. -/
def Phrase.ofData (text : String) (d : PhraseJSON) : Phrase :=
  let p : Phrase :=
    { text := text
      characters := d.characters
      requirements := d.requirements
      difficulty := jsOrNat d.difficulty 1
      frequency := jsOrNat d.frequency 50
      pinyin := jsOrStr d.pinyin ""
      meaning := jsOrStr d.meaning ""
      level := jsOrNat d.level 1
      xp := jsOrNat d.xp 0
      unlocked := d.unlocked || false
      totalPractices := jsOrNat d.totalPractices 0
      firstTimeCompleted := d.firstTimeCompleted || false
      hp := 0, attack := 0, defense := 0 }
  p.recomputeStats

/-- The JSON record written by `Player.toJSON`. -/
structure PlayerJSON where
  level : Nat
  xp : Nat
  totalCharacters : Nat
  totalPhrases : Nat
  totalPracticeTime : Nat
  achievements : List String
deriving Repr, DecidableEq

/-- Player.toJSON. -/
def Player.toJSON (p : Player) : PlayerJSON :=
  ⟨p.level, p.xp, p.totalCharacters, p.totalPhrases, p.totalPracticeTime, p.achievements⟩

/-- The `Player` constructor (`data.achievements || []` is the identity on a
present array field). -/
def Player.ofData (d : PlayerJSON) : Player :=
  { level := jsOrNat d.level 1
    xp := jsOrNat d.xp 0
    totalCharacters := jsOrNat d.totalCharacters 0
    totalPhrases := jsOrNat d.totalPhrases 0
    totalPracticeTime := jsOrNat d.totalPracticeTime 0
    achievements := d.achievements }

/-- The JSON record written by `Item.toJSON`. -/
structure ItemJSON where
  id : String
  name : String
  description : String
  type : String
  value : Nat
  rarity : String
  icon : String
  quantity : Nat
deriving Repr, DecidableEq

/-- Item.toJSON. -/
def Item.toJSON (i : Item) : ItemJSON :=
  ⟨i.id, i.name, i.description, i.type, i.value, i.rarity, i.icon, i.quantity⟩

/-- The `Item` constructor `new Item(itemId, data)`:
`const itemData = DEFAULT_ITEMS[itemId] || data` — for a known id the display
fields come from the built-in table and ONLY `quantity` comes from the
persisted data; for an unknown id everything comes from the data, with `||`
defaults. -/
def Item.ofData (itemId : String) (d : ItemJSON) : Item :=
  match lookup DEFAULT_ITEMS itemId with
  | some spec =>
    { id := jsOrStr spec.id itemId
      name := jsOrStr spec.name "Unknown Item"
      description := jsOrStr spec.description ""
      type := jsOrStr spec.type "misc"
      value := jsOrNat spec.value 0
      rarity := jsOrStr spec.rarity "common"
      icon := jsOrStr spec.icon "📦"
      quantity := jsOrNat d.quantity 1 }
  | none =>
    { id := jsOrStr d.id itemId
      name := jsOrStr d.name "Unknown Item"
      description := jsOrStr d.description ""
      type := jsOrStr d.type "misc"
      value := jsOrNat d.value 0
      rarity := jsOrStr d.rarity "common"
      icon := jsOrStr d.icon "📦"
      quantity := jsOrNat d.quantity 1 }

/-- The JSON record written by `Bag.toJSON`. -/
structure BagJSON where
  maxSlots : Nat
  items : List (String × ItemJSON)
deriving Repr, DecidableEq

/-- Bag.toJSON. -/
def Bag.toJSON (b : Bag) : BagJSON :=
  ⟨b.maxSlots, b.items.map (fun p => (p.1, p.2.toJSON))⟩

/-- The `Bag` constructor: default capacity 50, items rebuilt through the
`Item` constructor keyed by their map key. -/
def Bag.ofData (d : BagJSON) : Bag :=
  { maxSlots := jsOrNat d.maxSlots 50
    items := d.items.map (fun p => (p.1, Item.ofData p.1 p.2)) }

/-- The single save structure produced by `saveGame` / `exportToJSON`
(the export timestamp is display-only metadata and not modelled). -/
structure SaveData where
  player : PlayerJSON
  bag : BagJSON
  characters : List (String × CharacterJSON)
  phrases : List (String × PhraseJSON)
deriving Repr, DecidableEq

/-- HanziGame.saveGame / exportToJSON: serialize every component. -/
def GameState.toJSON (g : GameState) : SaveData :=
  { player := g.player.toJSON
    bag := g.bag.toJSON
    characters := g.characters.map (fun p => (p.1, p.2.toJSON))
    phrases := g.phrases.map (fun p => (p.1, p.2.toJSON)) }

/-- HanziGame.loadFromJSON (the pure core, after `JSON.parse` succeeded):
rebuild the player, the bag and both rosters through the constructors, which
re-derive every cached combat stat from the loaded level data. -/
def GameState.loadFromJSON (d : SaveData) : GameState :=
  { player := Player.ofData d.player
    bag := Bag.ofData d.bag
    characters := d.characters.map (fun p => (p.1, Character.ofData p.1 p.2))
    phrases := d.phrases.map (fun p => (p.1, Phrase.ofData p.1 p.2)) }

/-- A character state the running game can actually hold: the static
attributes are the positive values the data sources provide, the level is at
least 1, `originalPhrase` is never the empty string, and the cached combat
stats are consistent with the current level (the constructor establishes this
and every level-up re-establishes it). -/
def Character.valid (c : Character) : Bool :=
  c.strokes != 0 && c.difficulty != 0 && c.frequency != 0 && c.level != 0 &&
  c.originalPhrase != some "" &&
  c.hp == c.calculateHP && c.attack == c.calculateAttack && c.defense == c.calculateDefense

/-- A phrase state the running game can actually hold. -/
def Phrase.valid (p : Phrase) : Bool :=
  p.difficulty != 0 && p.frequency != 0 && p.level != 0 &&
  p.hp == p.calculateHP && p.attack == p.calculateAttack && p.defense == p.calculateDefense

/-- A player state the running game can actually hold. -/
def Player.valid (p : Player) : Bool :=
  p.level != 0

/-- An item stack the running game can actually hold under bag key `k`:
positive quantity, non-falsy display fields, and for a built-in item id the
display fields agree with the `DEFAULT_ITEMS` entry (the constructor ignores
persisted display fields for known ids). -/
def Item.valid (k : String) (it : Item) : Bool :=
  it.quantity != 0 && it.id != "" && it.name != "" && it.type != "" &&
  it.rarity != "" && it.icon != "" &&
  (match lookup DEFAULT_ITEMS k with
   | some spec =>
     it.id == spec.id && it.name == spec.name && it.description == spec.description &&
     it.type == spec.type && it.value == spec.value && it.rarity == spec.rarity &&
     it.icon == spec.icon
   | none => true)

/-- A bag state the running game can actually hold. -/
def Bag.valid (b : Bag) : Bool :=
  b.maxSlots != 0 && b.items.all (fun p => Item.valid p.1 p.2)

/-- A full game state the running game can actually hold; the map keys agree
with the entities' own key fields (`loadFromJSON` keys each rebuilt entity by
its map key). -/
def GameState.valid (g : GameState) : Bool :=
  g.player.valid && g.bag.valid &&
  g.characters.all (fun p => p.1 == p.2.char && p.2.valid) &&
  g.phrases.all (fun p => p.1 == p.2.text && p.2.valid)

/-- The `DEFAULT_CHARACTERS` entry for 你 (strokes 7, difficulty 1,
frequency 95), as persisted at a given level with fresh counters. -/
def niDataAt (level : Nat) : CharacterJSON :=
  ⟨"你", "nǐ", 7, 1, 95, level, 0, 0, 0, 0, true, false, none⟩

/-- The `DEFAULT_CHARACTERS` entry for 好 (strokes 6, difficulty 1,
frequency 88), as persisted at a given level with fresh counters. -/
def haoDataAt (level : Nat) : CharacterJSON :=
  ⟨"好", "hǎo", 6, 1, 88, level, 0, 0, 0, 0, true, false, none⟩

/-- The `DEFAULT_PHRASES` entry for 你好 (requirements 你:3, 好:3,
difficulty 1, frequency 95) at a given progression state. -/
def nihaoData (level xp : Nat) (unlocked firstTimeCompleted : Bool) : PhraseJSON :=
  ⟨"你好", ["你", "好"], [("你", 3), ("好", 3)], 1, 95, "nǐ hǎo", "hello",
    level, xp, unlocked, 0, firstTimeCompleted⟩

/-- The `DEFAULT_PHRASES` entry for 麵包 (requirements 麵:2, 包:3,
difficulty 3, frequency 82), unlocked (reachable by capturing it in battle). -/
def mianbaoData : PhraseJSON :=
  ⟨"麵包", ["麵", "包"], [("麵", 2), ("包", 3)], 3, 82, "miàn bāo", "bread",
    1, 0, true, 0, false⟩

/-- Roster with 你 at level 3 and 好 at level 2 (好 below the 你好 requirement). -/
def demoRosterLow : List (String × Character) :=
  [("你", Character.ofData "你" (niDataAt 3)), ("好", Character.ofData "好" (haoDataAt 2))]

/-- Roster with 你 at level 3 and 好 at level 3 (both requirements met). -/
def demoRosterHigh : List (String × Character) :=
  [("你", Character.ofData "你" (niDataAt 3)), ("好", Character.ofData "好" (haoDataAt 3))]

/-- A fresh level-1 你 as created by the starter path. -/
def demoCharacter : Character := Character.ofData "你" (niDataAt 1)

/-- A fresh player. -/
def demoPlayer : Player := ⟨1, 0, 3, 0, 0, []⟩

/-- The 你好 phrase, unlocked and already completed once. -/
def demoPhrase : Phrase := Phrase.ofData "你好" (nihaoData 1 0 true true)

/-- The 你好 phrase at level 1 holding 500 XP (a state the `Phrase`
constructor accepts verbatim from persisted data). -/
def overfullPhrase : Phrase := Phrase.ofData "你好" (nihaoData 1 500 true true)

/-- The 你好 phrase, unlocked, never completed. -/
def freshNihao : Phrase := Phrase.ofData "你好" (nihaoData 1 0 true false)

/-- State for the removal scenario: roster 你+好 at level 1, the phrase 你好
locked (levels below its requirements), the unrelated phrase 麵包 unlocked
(captured in battle), so `player.totalPhrases = 1`. -/
def removalState : GameState :=
  { player := ⟨1, 0, 2, 1, 0, []⟩
    bag := ⟨50, []⟩
    characters := [("你", Character.ofData "你" (niDataAt 1)),
                   ("好", Character.ofData "好" (haoDataAt 1))]
    phrases := [("你好", Phrase.ofData "你好" (nihaoData 1 0 false false)),
                ("麵包", Phrase.ofData "麵包" mianbaoData)] }

/-- State owning only 你, for the missing-character practice scenario. -/
def practiceState : GameState :=
  { player := ⟨1, 0, 1, 0, 0, []⟩
    bag := ⟨50, []⟩
    characters := [("你", Character.ofData "你" (niDataAt 1))]
    phrases := [] }

/-- A small but full game state (player with progress, one bag stack, one
character, one phrase) used to witness the serialization round-trip. -/
def demoState : GameState :=
  { player := ⟨2, 150, 3, 1, 0, ["first_character"]⟩
    bag := ⟨50, [("xp_boost_small",
      Item.ofData "xp_boost_small"
        ⟨"xp_boost_small", "Small XP Boost", "Grants 100 XP to a character",
          "xp_boost", 100, "common", "🔮", 2⟩)]⟩
    characters := [("你", Character.ofData "你" (niDataAt 2))]
    phrases := [("你好", Phrase.ofData "你好" (nihaoData 1 0 false false))] }

theorem jsOrNat_zero (x : Nat) : jsOrNat x 0 = x := by
  unfold jsOrNat; split <;> omega

theorem jsOrNat_of_ne (x d : Nat) (h : x ≠ 0) : jsOrNat x d = x := if_neg h

theorem jsOrStr_empty (x : String) : jsOrStr x "" = x := by
  unfold jsOrStr; split <;> simp_all

theorem jsOrStr_of_ne (x d : String) (h : x ≠ "") : jsOrStr x d = x := if_neg h

theorem jsOrNull_of_ne (x : Option String) (h : x ≠ some "") : jsOrNull x = x := by
  unfold jsOrNull
  cases x with
  | none => rfl
  | some s =>
    simp only []
    rw [if_neg]
    intro hs
    exact h (by rw [hs])

theorem list_map_self_of_all {α : Type} (l : List α) (f : α → α) (P : α → Bool)
    (hf : ∀ a, P a = true → f a = a) (hl : l.all P = true) : l.map f = l := by
  induction l with
  | nil => rfl
  | cons a t ih =>
    rw [List.all_cons, Bool.and_eq_true] at hl
    rw [List.map_cons, hf a hl.1, ih hl.2]

theorem levelLoop_level_le (step : Nat) :
    ∀ fuel level xp, level ≤ (levelLoop step fuel level xp).1 := by
  intro fuel
  induction fuel with
  | zero => intro level xp; exact Nat.le_refl _
  | succ n ih =>
    intro level xp
    rw [levelLoop]
    split
    · exact Nat.le_trans (Nat.le_succ _) (ih _ _)
    · exact Nat.le_refl _

theorem levelLoop_xp_lt (step : Nat) (hstep : 0 < step) :
    ∀ fuel level xp, 0 < level → xp ≤ fuel →
      (levelLoop step fuel level xp).2 < (levelLoop step fuel level xp).1 * step := by
  intro fuel
  induction fuel with
  | zero =>
    intro level xp hlevel hfuel
    have hxp : xp = 0 := Nat.le_zero.mp hfuel
    rw [levelLoop, hxp]
    exact Nat.mul_pos hlevel hstep
  | succ n ih =>
    intro level xp hlevel hfuel
    rw [levelLoop]
    split
    · rename_i h
      apply ih
      · exact Nat.succ_pos _
      · have h1 : 1 ≤ level * step := Nat.mul_pos hlevel hstep
        omega
    · rename_i h
      push_neg at h
      exact h hstep hlevel

theorem levelLoop_conserve (step : Nat) :
    ∀ fuel level xp,
      (levelLoop step fuel level xp).2 +
        ∑ k in Finset.Ico level (levelLoop step fuel level xp).1, k * step = xp := by
  intro fuel
  induction fuel with
  | zero =>
    intro level xp
    rw [levelLoop]
    simp
  | succ n ih =>
    intro level xp
    rw [levelLoop]
    split
    · rename_i h
      have hle : level + 1 ≤ (levelLoop step n (level + 1) (xp - level * step)).1 :=
        levelLoop_level_le step n (level + 1) (xp - level * step)
      have hsum := Finset.sum_eq_sum_Ico_succ_bot
        (Nat.lt_of_lt_of_le (Nat.lt_succ_self level) hle) (fun k => k * step)
      rw [hsum]
      have := ih (level + 1) (xp - level * step)
      omega
    · simp

theorem character_ofData_toJSON (c : Character) (h : c.valid = true) :
    Character.ofData c.char c.toJSON = c := by
  simp only [Character.valid, Bool.and_eq_true, bne_iff_ne, ne_eq, beq_iff_eq] at h
  obtain ⟨⟨⟨⟨⟨⟨⟨hs, hd⟩, hf⟩, hl⟩, ho⟩, hhp⟩, hatk⟩, hdef⟩ := h
  cases c with
  | mk char pinyin strokes difficulty frequency level xp totalPractices totalMistakes
      bestAccuracy unlocked isPhraseCharacter originalPhrase hp attack defense =>
    simp only [Character.ofData, Character.toJSON, Character.recomputeStats,
      Character.calculateHP, Character.calculateAttack, Character.calculateDefense] at *
    simp only [jsOrNat_of_ne _ _ hs, jsOrNat_of_ne _ _ hd, jsOrNat_of_ne _ _ hf,
      jsOrNat_of_ne _ _ hl, jsOrNat_zero, jsOrStr_empty, jsOrNull_of_ne _ ho,
      Bool.or_false, Character.mk.injEq]
    simp_all

theorem phrase_ofData_toJSON (p : Phrase) (h : p.valid = true) :
    Phrase.ofData p.text p.toJSON = p := by
  simp only [Phrase.valid, Bool.and_eq_true, bne_iff_ne, ne_eq, beq_iff_eq] at h
  obtain ⟨⟨⟨⟨⟨hd, hf⟩, hl⟩, hhp⟩, hatk⟩, hdef⟩ := h
  cases p with
  | mk text characters requirements difficulty frequency pinyin meaning level xp unlocked
      totalPractices firstTimeCompleted hp attack defense =>
    simp only [Phrase.ofData, Phrase.toJSON, Phrase.recomputeStats,
      Phrase.calculateHP, Phrase.calculateAttack, Phrase.calculateDefense] at *
    simp only [jsOrNat_of_ne _ _ hd, jsOrNat_of_ne _ _ hf, jsOrNat_of_ne _ _ hl,
      jsOrNat_zero, jsOrStr_empty, Bool.or_false, Phrase.mk.injEq]
    simp_all

theorem player_ofData_toJSON (p : Player) (h : p.valid = true) :
    Player.ofData p.toJSON = p := by
  simp only [Player.valid, bne_iff_ne, ne_eq] at h
  cases p with
  | mk level xp totalCharacters totalPhrases totalPracticeTime achievements =>
    simp only [Player.ofData, Player.toJSON, jsOrNat_of_ne _ _ h, jsOrNat_zero]

theorem item_ofData_toJSON (k : String) (it : Item) (h : Item.valid k it = true) :
    Item.ofData k it.toJSON = it := by
  simp only [Item.valid, Bool.and_eq_true, bne_iff_ne, ne_eq, beq_iff_eq] at h
  obtain ⟨⟨⟨⟨⟨⟨hq, hid⟩, hn⟩, ht⟩, hr⟩, hi⟩, hspec⟩ := h
  cases it with
  | mk id name description type value rarity icon quantity =>
    simp only [Item.ofData, Item.toJSON]
    revert hspec
    cases hcase : lookup DEFAULT_ITEMS k with
    | none =>
      intro _
      simp only [jsOrStr_of_ne _ _ hid, jsOrStr_of_ne _ _ hn, jsOrStr_of_ne _ _ ht,
        jsOrStr_of_ne _ _ hr, jsOrStr_of_ne _ _ hi, jsOrStr_empty, jsOrNat_zero,
        jsOrNat_of_ne _ _ hq]
    | some spec =>
      intro hspec
      simp only [Bool.and_eq_true, beq_iff_eq] at hspec
      obtain ⟨⟨⟨⟨⟨⟨hsid, hsn⟩, hsd⟩, hst⟩, hsv⟩, hsr⟩, hsi⟩ := hspec
      subst hsid hsn hsd hst hsv hsr hsi
      simp only [jsOrStr_of_ne _ _ hid, jsOrStr_of_ne _ _ hn, jsOrStr_of_ne _ _ ht,
        jsOrStr_of_ne _ _ hr, jsOrStr_of_ne _ _ hi, jsOrStr_empty, jsOrNat_zero,
        jsOrNat_of_ne _ _ hq]

theorem bag_ofData_toJSON (b : Bag) (h : b.valid = true) :
    Bag.ofData b.toJSON = b := by
  simp only [Bag.valid, Bool.and_eq_true, bne_iff_ne, ne_eq] at h
  obtain ⟨hm, hitems⟩ := h
  cases b with
  | mk maxSlots items =>
    simp only [Bag.ofData, Bag.toJSON, jsOrNat_of_ne _ _ hm, List.map_map, Bag.mk.injEq,
      true_and]
    exact list_map_self_of_all items _ (fun p => Item.valid p.1 p.2)
      (fun a ha => by
        simp only [Function.comp]
        exact congrArg _ (item_ofData_toJSON a.1 a.2 ha)) hitems

theorem charAddXP_level (c : Character) (a : Nat) :
    (c.addXP a).1.level = (levelLoop 100 (c.xp + a) c.level (c.xp + a)).1 := by
  simp only [Character.addXP]
  split
  · rfl
  · rename_i h
    show c.level = (levelLoop 100 (c.xp + a) c.level (c.xp + a)).1
    exact Nat.le_antisymm (levelLoop_level_le 100 (c.xp + a) c.level (c.xp + a))
      (Nat.le_of_not_lt h)

theorem charAddXP_xp (c : Character) (a : Nat) :
    (c.addXP a).1.xp = (levelLoop 100 (c.xp + a) c.level (c.xp + a)).2 := by
  simp only [Character.addXP]
  split <;> rfl

theorem playerAddXP_level (p : Player) (a : Nat) :
    (p.addXP a).1.level = (levelLoop 200 (p.xp + a) p.level (p.xp + a)).1 := rfl

theorem playerAddXP_xp (p : Player) (a : Nat) :
    (p.addXP a).1.xp = (levelLoop 200 (p.xp + a) p.level (p.xp + a)).2 := rfl

theorem Phrase.recordPractice_xpGained (p : Phrase) :
    (p.recordPractice).2.xpGained
      = 25 + p.characters.length * 5 + (if p.firstTimeCompleted then 0 else 50) := by
  cases hf : p.firstTimeCompleted
  all_goals simp only [Phrase.recordPractice, hf, Bool.not_false, Bool.not_true,
    (show (false = true) = False by simp), eq_self_iff_true, if_true, if_false]
  all_goals split <;> rfl

theorem sum_Ico_self_succ (f : Nat → Nat) (n : Nat) :
    ∑ k in Finset.Ico n (n + 1), f k = f n := by
  rw [Finset.sum_Ico_succ_top (Nat.le_refl _), Finset.Ico_self, Finset.sum_empty, Nat.zero_add]

theorem Phrase.recordPractice_ledger (p : Phrase) :
    (p.recordPractice).1.xp +
        ∑ k in Finset.Ico p.level (p.recordPractice).1.level, phraseThreshold k
      = p.xp + (p.recordPractice).2.xpGained ∧
    (p.recordPractice).1.level ≤ p.level + 1 := by
  cases hf : p.firstTimeCompleted
  all_goals simp only [Phrase.recordPractice, hf, Bool.not_false, Bool.not_true,
    (show (false = true) = False by simp), eq_self_iff_true, if_true, if_false,
    Phrase.recomputeStats]
  all_goals split
  all_goals dsimp only
  · exact ⟨by rw [sum_Ico_self_succ]; omega, by omega⟩
  · exact ⟨by rw [Finset.Ico_self, Finset.sum_empty]; omega, by omega⟩
  · exact ⟨by rw [sum_Ico_self_succ]; omega, by omega⟩
  · exact ⟨by rw [Finset.Ico_self, Finset.sum_empty]; omega, by omega⟩

/-- Claim C1 (amended): for characters and players (while-loop leveling),
adding XP never leaves `xp ≥ threshold(finalLevel)`, and the thresholds
consumed across all level-ups plus the remaining XP equal `x0 + X` exactly.
For phrases, `recordPractice` conserves XP exactly in the same sense but
performs at most ONE level-up per call (single `if`, not a loop), so its final
`xp` is not in general below `threshold(finalLevel)`. -/
theorem xp_level_up_conservation (c : Character) (pl : Player) (p : Phrase)
    (a b : Nat) (hc : c.level ≠ 0) (hpl : pl.level ≠ 0) :
    ((c.addXP a).1.xp < charThreshold (c.addXP a).1.level ∧
      (c.addXP a).1.xp + ∑ k in Finset.Ico c.level (c.addXP a).1.level, charThreshold k
        = c.xp + a) ∧
    ((pl.addXP b).1.xp < playerThreshold (pl.addXP b).1.level ∧
      (pl.addXP b).1.xp + ∑ k in Finset.Ico pl.level (pl.addXP b).1.level, playerThreshold k
        = pl.xp + b) ∧
    ((p.recordPractice).1.xp +
        ∑ k in Finset.Ico p.level (p.recordPractice).1.level, phraseThreshold k
      = p.xp + (p.recordPractice).2.xpGained ∧
      (p.recordPractice).1.level ≤ p.level + 1) := by
  refine ⟨⟨?_, ?_⟩, ⟨?_, ?_⟩, Phrase.recordPractice_ledger p⟩
  · rw [charAddXP_xp, charAddXP_level]
    simp only [charThreshold]
    exact levelLoop_xp_lt 100 (by omega) (c.xp + a) c.level (c.xp + a)
      (Nat.pos_of_ne_zero hc) (Nat.le_refl _)
  · rw [charAddXP_xp, charAddXP_level]
    simp only [charThreshold]
    exact levelLoop_conserve 100 (c.xp + a) c.level (c.xp + a)
  · rw [playerAddXP_xp, playerAddXP_level]
    simp only [playerThreshold]
    exact levelLoop_xp_lt 200 (by omega) (pl.xp + b) pl.level (pl.xp + b)
      (Nat.pos_of_ne_zero hpl) (Nat.le_refl _)
  · rw [playerAddXP_xp, playerAddXP_level]
    simp only [playerThreshold]
    exact levelLoop_conserve 200 (pl.xp + b) pl.level (pl.xp + b)

/-- Witness for `xp_level_up_conservation` at a level-1 你, a fresh player and
the 你好 phrase, with XP amounts 250 and 130. -/
theorem xp_level_up_conservation_witness :
    demoCharacter.level ≠ 0 ∧ demoPlayer.level ≠ 0 ∧
    (((demoCharacter.addXP 250).1.xp < charThreshold (demoCharacter.addXP 250).1.level ∧
      (demoCharacter.addXP 250).1.xp +
          ∑ k in Finset.Ico demoCharacter.level (demoCharacter.addXP 250).1.level,
            charThreshold k
        = demoCharacter.xp + 250) ∧
    ((demoPlayer.addXP 130).1.xp < playerThreshold (demoPlayer.addXP 130).1.level ∧
      (demoPlayer.addXP 130).1.xp +
          ∑ k in Finset.Ico demoPlayer.level (demoPlayer.addXP 130).1.level,
            playerThreshold k
        = demoPlayer.xp + 130) ∧
    ((demoPhrase.recordPractice).1.xp +
        ∑ k in Finset.Ico demoPhrase.level (demoPhrase.recordPractice).1.level,
          phraseThreshold k
      = demoPhrase.xp + (demoPhrase.recordPractice).2.xpGained ∧
      (demoPhrase.recordPractice).1.level ≤ demoPhrase.level + 1)) :=
  ⟨by decide, by decide,
    xp_level_up_conservation demoCharacter demoPlayer demoPhrase 250 130
      (by decide) (by decide)⟩

/-- Counterexample to claim C1 as stated: the 你好 phrase at level 1 holding
500 XP (a state the constructor accepts) records one practice, levels up once
to level 2 and is left with 385 XP, which is ≥ `threshold(2) = 300` — the
single `if` of `Phrase.recordPractice` does not loop. -/
theorem phrase_xp_overflow_after_single_level_up :
    (overfullPhrase.recordPractice).1.level = 2 ∧
    (overfullPhrase.recordPractice).1.xp = 385 ∧
    phraseThreshold (overfullPhrase.recordPractice).1.level
      ≤ (overfullPhrase.recordPractice).1.xp := by decide

/-- Claim C5: for every character built by the constructor,
`HP = 20 + strokes*3 + (level-1)*5`, `Attack = 10 + (10 - floor(frequency/10))
+ (level-1)*2`, `Defense = 8 + difficulty*4 + (level-1)*2`; in particular 你
(strokes 7, difficulty 1, frequency 95) at level 1 has HP 41, Attack 11,
Defense 12. -/
theorem character_stat_formulas (ch : String) (d : CharacterJSON) :
    ((Character.ofData ch d).hp
        = 20 + ((Character.ofData ch d).strokes : Int) * 3
            + (((Character.ofData ch d).level : Int) - 1) * 5 ∧
      (Character.ofData ch d).attack
        = 10 + (10 - (((Character.ofData ch d).frequency / 10 : Nat) : Int))
            + (((Character.ofData ch d).level : Int) - 1) * 2 ∧
      (Character.ofData ch d).defense
        = 8 + ((Character.ofData ch d).difficulty : Int) * 4
            + (((Character.ofData ch d).level : Int) - 1) * 2) ∧
    ((Character.ofData "你" (niDataAt 1)).hp = 41 ∧
      (Character.ofData "你" (niDataAt 1)).attack = 11 ∧
      (Character.ofData "你" (niDataAt 1)).defense = 12) :=
  ⟨⟨rfl, rfl, rfl⟩, by decide⟩

/-- Counterexample to claim C4 as stated: the phrase 你好 (difficulty 1,
frequency 95, 2 constituents) at level 1 has Defense 21, not the claimed
`12 + difficulty*4 + (level-1)*3 = 16` (the code uses `15 - floor(frequency/15)`,
not `difficulty*4`), and its HP grows by 10 per level, not by the claimed 5. -/
theorem phrase_stats_diverge_from_claimed_formulas :
    (Phrase.ofData "你好" (nihaoData 1 0 false false)).defense = 21 ∧
    ¬((Phrase.ofData "你好" (nihaoData 1 0 false false)).defense
        = 12 + ((Phrase.ofData "你好" (nihaoData 1 0 false false)).difficulty : Int) * 4
            + (((Phrase.ofData "你好" (nihaoData 1 0 false false)).level : Int) - 1) * 3) ∧
    (Phrase.ofData "你好" (nihaoData 2 0 false false)).hp
        - (Phrase.ofData "你好" (nihaoData 1 0 false false)).hp = 10 ∧
    (10 : Int) ≠ 5 := by decide

/-- Claim C4 (amended): for every phrase built by the constructor,
`HP = 50 + 20*(constituent count) + (level-1)*10` (no stroke term),
`Attack = 15 + difficulty*5 + (level-1)*3`, and
`Defense = 12 + (15 - floor(frequency/15)) + (level-1)*3`. -/
theorem phrase_stat_formulas (t : String) (d : PhraseJSON) :
    (Phrase.ofData t d).hp
        = 50 + ((Phrase.ofData t d).characters.length : Int) * 20
            + (((Phrase.ofData t d).level : Int) - 1) * 10 ∧
    (Phrase.ofData t d).attack
        = 15 + ((Phrase.ofData t d).difficulty : Int) * 5
            + (((Phrase.ofData t d).level : Int) - 1) * 3 ∧
    (Phrase.ofData t d).defense
        = 12 + (15 - (((Phrase.ofData t d).frequency / 15 : Nat) : Int))
            + (((Phrase.ofData t d).level : Int) - 1) * 3 :=
  ⟨rfl, rfl, rfl⟩

/-- Claim C6: `canUnlock` returns true iff every constituent character is
present in the roster with level at least its requirement; in particular 你好
(requirements 你:3, 好:3) is not unlockable against 你@3/好@2 and is
unlockable against 你@3/好@3. -/
theorem canUnlock_characterization :
    (∀ (p : Phrase) (coll : List (String × Character)),
      p.canUnlock coll = true ↔
        ∀ ch ∈ p.characters, ∃ c r, lookup coll ch = some c ∧
          lookup p.requirements ch = some r ∧ r ≤ c.level) ∧
    Phrase.canUnlock (Phrase.ofData "你好" (nihaoData 1 0 false false)) demoRosterLow
      = false ∧
    Phrase.canUnlock (Phrase.ofData "你好" (nihaoData 1 0 false false)) demoRosterHigh
      = true := by
  refine ⟨?_, by decide, by decide⟩
  intro p coll
  rw [Phrase.canUnlock, List.all_eq_true]
  refine ⟨fun h ch hch => ?_, fun h ch hch => ?_⟩
  · have hx := h ch hch
    rcases hcoll : lookup coll ch with _ | c
    · rw [hcoll] at hx
      simp at hx
    · rcases hreq : lookup p.requirements ch with _ | r
      · rw [hcoll, hreq] at hx
        simp at hx
      · rw [hcoll, hreq] at hx
        simp only [decide_eq_true_eq] at hx
        exact ⟨c, r, rfl, rfl, hx⟩
  · obtain ⟨c, r, hcoll, hreq, hcr⟩ := h ch hch
    rw [hcoll, hreq]
    simp only [decide_eq_true_eq]
    exact hcr

/-- Claim C10: on an empty roster `getPlayerLevelStats` returns
averageLevel = maxLevel = minLevel = 1, and `calculateOpponentLevel` always
returns a level ≥ 1, for every stats record, opponent shape and random draw. -/
theorem empty_roster_opponent_level :
    GameState.getPlayerLevelStats [] = ⟨1, 1, 1⟩ ∧
    ∀ (stats : LevelStats) (opp : OpponentShape) (r1 r2 : Nat),
      1 ≤ GameState.calculateOpponentLevel stats opp r1 r2 := by
  refine ⟨rfl, fun stats opp r1 r2 => ?_⟩
  simp only [GameState.calculateOpponentLevel]
  exact le_max_left 1 _

/-- Claim C2 (code evaluation at the failing draw): the damage floor holds —
every computed damage is ≥ 1 — but with Attack 10 vs Defense 10 and random
draw 5 (`Math.random() ∈ [5/6, 1)`) the code deals damage 4, while the claimed
formula `max(1, max(1, A−D) + v)` with `v` ranging over `[−2,+2]` only yields
1, 2 or 3 at those stats: the implemented variation ranges over `[−2,+3]`. -/
theorem battle_variation_exceeds_claimed_range :
    (∀ (atk dfs hp : Int) (draw : Nat),
      1 ≤ (GameState.executeBattleTurn atk dfs hp draw).2.damage) ∧
    (GameState.executeBattleTurn 10 10 20 5).2.damage = 4 ∧
    (([-2, -1, 0, 1, 2] : List Int).map
        (fun v => max 1 (max 1 ((10 : Int) - 10) + v))) = [1, 1, 1, 2, 3] ∧
    (([1, 1, 1, 2, 3] : List Int).all (fun d => d < 4)) = true := by
  refine ⟨fun atk dfs hp draw => ?_, by decide, by decide, by decide⟩
  simp only [GameState.executeBattleTurn]
  exact le_max_left 1 _

/-- Claim C3 (code evaluation at the failing state): in `removalState` every
phrase containing 好 is locked, and the only unlocked phrase (麵包, captured
in battle) does not contain 好; yet removing 好 drops the player's
unlocked-phrase counter from 1 to 0 — the removal loop decrements for locked
phrases too, desynchronizing the counter from the number of unlocked
phrases. -/
theorem remove_character_decrements_for_locked_phrases :
    (∀ tp ∈ removalState.phrases, "好" ∈ tp.2.characters → tp.2.unlocked = false) ∧
    removalState.player.totalPhrases = 1 ∧
    (removalState.removeCharacter "好").1.player.totalPhrases = 0 := by decide

/-- Counterexample to claim C7 as stated: completing 你好 for the first time
increases the player's XP by 20 (`10 × 2` constituents), not by the phrase's
own reward `25 + 5×2 + 50 = 85`. -/
theorem player_gets_flat_bonus_not_phrase_reward :
    (GameState.completePhraseSequence demoPlayer freshNihao).1.xp = 20 ∧
    25 + freshNihao.characters.length * 5 + 50 = 85 ∧
    (20 : Nat) ≠ 85 := by decide

/-- Claim C7 (amended): on every full phrase-sequence completion the player's
XP increases by exactly `10 × (constituent count)` (conserved across the
player's level-up loop), while the phrase itself gains
`25 + 5 × (constituent count)` plus 50 on its first completion. -/
theorem completePhraseSequence_player_xp (player : Player) (phrase : Phrase) :
    (GameState.completePhraseSequence player phrase).2.2.bonusXP
        = phrase.characters.length * 10 ∧
    (GameState.completePhraseSequence player phrase).1.xp +
        ∑ k in Finset.Ico player.level
            (GameState.completePhraseSequence player phrase).1.level,
          playerThreshold k
      = player.xp + phrase.characters.length * 10 ∧
    (phrase.recordPractice).2.xpGained
      = 25 + phrase.characters.length * 5
          + (if phrase.firstTimeCompleted then 0 else 50) := by
  refine ⟨rfl, ?_, Phrase.recordPractice_xpGained phrase⟩
  simp only [GameState.completePhraseSequence]
  rw [playerAddXP_xp, playerAddXP_level]
  simp only [playerThreshold]
  exact levelLoop_conserve 200 (player.xp + phrase.characters.length * 10) player.level
    (player.xp + phrase.characters.length * 10)

/-- Counterexample to claim C8 as stated: starting practice on 不, which is
absent from the roster, throws (`Except.error` models the source's
`throw new Error(...)`) instead of returning a failure result. -/
theorem startPractice_throws_on_missing_character :
    practiceState.startPractice "不" = Except.error "Character 不 not found" := by rfl

/-- Claim C8 (amended): `startPractice` throws exactly when the character key
is absent from the roster (the absence failure is a thrown exception, not a
`success: false` result), and returns the practiced character otherwise. -/
theorem startPractice_error_characterization (g : GameState) (ch : String) :
    ((∃ e, g.startPractice ch = Except.error e) ↔ lookup g.characters ch = none) ∧
    (∀ c : Character, g.startPractice ch = Except.ok c ↔
      lookup g.characters ch = some c) := by
  simp only [GameState.startPractice]
  cases hc : lookup g.characters ch with
  | none => simp
  | some c0 => simp

/-- Claim C9: deserializing a serialized valid game state reproduces it
exactly — same player, same bag contents, same roster membership and same
levels/XP, with every cached combat stat re-derived by the constructors. -/
theorem save_load_roundtrip (g : GameState) (h : g.valid = true) :
    GameState.loadFromJSON g.toJSON = g := by
  simp only [GameState.valid, Bool.and_eq_true] at h
  obtain ⟨⟨⟨hpl, hb⟩, hc⟩, hph⟩ := h
  cases g with
  | mk player bag characters phrases =>
    simp only [GameState.loadFromJSON, GameState.toJSON, List.map_map, GameState.mk.injEq]
    refine ⟨player_ofData_toJSON _ hpl, bag_ofData_toJSON _ hb, ?_, ?_⟩
    · refine list_map_self_of_all _ _ (fun q => q.1 == q.2.char && q.2.valid) ?_ hc
      intro a ha
      simp only [Bool.and_eq_true, beq_iff_eq] at ha
      obtain ⟨hk, hv⟩ := ha
      obtain ⟨k, cc⟩ := a
      simp only at hk
      subst hk
      simp only [Function.comp]
      rw [character_ofData_toJSON cc hv]
    · refine list_map_self_of_all _ _ (fun q => q.1 == q.2.text && q.2.valid) ?_ hph
      intro a ha
      simp only [Bool.and_eq_true, beq_iff_eq] at ha
      obtain ⟨hk, hv⟩ := ha
      obtain ⟨k, pp⟩ := a
      simp only at hk
      subst hk
      simp only [Function.comp]
      rw [phrase_ofData_toJSON pp hv]

/-- Witness for `save_load_roundtrip` at `demoState`. -/
theorem save_load_roundtrip_witness :
    demoState.valid = true ∧ GameState.loadFromJSON demoState.toJSON = demoState :=
  ⟨by decide, save_load_roundtrip demoState (by decide)⟩

end HanziGame
